import Mathlib

/-!
# sqlpp11 boolean value type (`include/sqlpp11/boolean.h`)

A shallow embedding of `sqlpp::detail::boolean`: the parameter holder
`_parameter_t`, the result decoder `_result_entry_t` and the operator set
`operators<Base>`, followed by the properties proved about them.

Conventions of the embedding

* A C++ object is a Lean structure with the same fields, in declaration order
  (which is the order in which the member initialisers run).  A mutating member
  function is a function returning the new object.
* `const char* data` is `Option (List Nat)`: `none` is `nullptr`, `some bs` is a
  pointer to the bytes `bs` followed by the terminating NUL of the column text.
* The unnamed `size_t` argument is a `Nat` that the body never reads.
* `throw exception(msg)` is `Except.error ⟨msg⟩`; where a call can also throw
  the stream's `std::ios_base::failure`, the error type is `thrown`.
* A compile-time rejection (`static_assert`, a failing constraint) is
  `Except.error` of a `compile_error`.
-/

namespace sqlpp

/-- The exception type of `sqlpp11/exception.h`: a runtime error carrying a message. -/
structure exception where
  what : String
deriving DecidableEq, Repr

/-- Byte `i` of the memory behind a non-null `const char*`: the column bytes,
then the NUL terminator. -/
def c_index (data : List Nat) (i : Nat) : Nat :=
  data.getD i 0

/-- The bytes of a C string literal (without the terminator). -/
def c_str (s : String) : List Nat :=
  s.toList.map Char.toNat

/-- What a call can throw: the `sqlpp::exception` of this library, or the
`std::ios_base::failure` of an output stream. -/
inductive thrown where
  | sqlpp_exception (e : exception)
  | ios_failure
deriving DecidableEq, Repr

/-- The error state of a stream (`std::ios_base::iostate`), also the type of
its exception mask; all three bits clear is `goodbit`. -/
structure iostate where
  eofbit : Bool
  failbit : Bool
  badbit : Bool
deriving DecidableEq, Repr

/-- The state `goodbit`. -/
def iostate.goodbit : iostate :=
  { eofbit := false, failbit := false, badbit := false }

/-- The union `a | b` of two states. -/
def iostate.union (a b : iostate) : iostate :=
  { eofbit := a.eofbit || b.eofbit, failbit := a.failbit || b.failbit,
    badbit := a.badbit || b.badbit }

/-- The test `(a & b) != 0`. -/
def iostate.meets (a b : iostate) : Bool :=
  (a.eofbit && b.eofbit) || (a.failbit && b.failbit) || (a.badbit && b.badbit)

/-- The field `std::ios_base::basefield`. -/
inductive basefield where
  | dec
  | oct
  | hex
deriving DecidableEq, Repr

/-- The field `std::ios_base::adjustfield`; `unset` is the state of a fresh
stream and pads like `right`. -/
inductive adjustfield where
  | unset
  | left
  | right
  | internal
deriving DecidableEq, Repr

/-- The state of a `std::ostream` that `operator<<(bool)` reads and writes: the
format flags, field width and fill character, the names of the locale's
`numpunct` facet for `true` and `false`, the error state and the exception
mask, the number of characters the stream buffer still accepts (`none`: no
limit), and the characters written so far.  The stream has no tied stream and
`unitbuf` is not set. -/
structure ostream where
  boolalpha : Bool
  showpos : Bool
  showbase : Bool
  uppercase : Bool
  base : basefield
  adjust : adjustfield
  width : Nat
  fill : Nat
  truename : List Nat
  falsename : List Nat
  rdstate : iostate
  exceptions : iostate
  room : Option Nat
  buf : List Nat
deriving DecidableEq, Repr

/-- A stream as constructed and not reconfigured except for `boolalpha`:
decimal, no `showpos`, no `showbase`, width 0, fill of a space, classic locale,
good state, empty exception mask, a buffer without limit. -/
def ostream.classic (boolalpha : Bool) (buf : List Nat) : ostream :=
  { boolalpha := boolalpha, showpos := false, showbase := false, uppercase := false,
    base := .dec, adjust := .unset, width := 0, fill := ' '.toNat,
    truename := c_str "true", falsename := c_str "false",
    rdstate := iostate.goodbit, exceptions := iostate.goodbit, room := none, buf := buf }

/-- The member `good()`. -/
def ostream.good (os : ostream) : Bool :=
  !(os.rdstate.eofbit || os.rdstate.failbit || os.rdstate.badbit)

/-- The member `setstate(bits)`: adds the bits to the error state; the second
component tells whether `std::ios_base::failure` is thrown, which happens when
the new state meets the exception mask. -/
def ostream.setstate (os : ostream) (bits : iostate) : ostream × Bool :=
  let state := os.rdstate.union bits
  ({ os with rdstate := state }, state.meets os.exceptions)

/-- The characters `operator<<(bool)` produces with classic formatting:
`1`/`0`, or `true`/`false` when `boolalpha` is set. -/
def bool_text (boolalpha : Bool) (b : Bool) : List Nat :=
  if boolalpha then (if b then c_str "true" else c_str "false")
  else (if b then c_str "1" else c_str "0")

/-- The sign or base mark `num_put` puts before the digits of the integer 0 or
1, after which `internal` padding goes: `+` in decimal with `showpos`, and
`0x`/`0X` in hexadecimal with `showbase` for the value 1. -/
def ostream.sign_or_base (os : ostream) (b : Bool) : List Nat :=
  match os.base with
  | .dec => if os.showpos then c_str "+" else []
  | .oct => []
  | .hex => if os.showbase && b then (if os.uppercase then c_str "0X" else c_str "0x") else []

/-- The digits of the integer 0 or 1; in octal with `showbase` the value 1 gets
a leading `0`. -/
def ostream.digits (os : ostream) (b : Bool) : List Nat :=
  match os.base with
  | .oct => if os.showbase && b then c_str "01" else (if b then c_str "1" else c_str "0")
  | _ => if b then c_str "1" else c_str "0"

/-- Padding to the field width with the fill character: after the text for
`left`, between mark and text for `internal`, before both otherwise. -/
def ostream.pad (os : ostream) (pre text : List Nat) : List Nat :=
  let fillers := List.replicate (os.width - (pre.length + text.length)) os.fill
  match os.adjust with
  | .left => pre ++ text ++ fillers
  | .internal => pre ++ fillers ++ text
  | _ => fillers ++ pre ++ text

/-- The characters `num_put::put` produces for a `bool`: without `boolalpha`
the integer 0 or 1, with it the locale's name; both padded to the field width
(the names as libstdc++ pads them). -/
def ostream.formatted_bool (os : ostream) (b : Bool) : List Nat :=
  if os.boolalpha then os.pad [] (if b then os.truename else os.falsename)
  else os.pad (os.sign_or_base b) (os.digits b)

/-- The effect of `os << b` for a `bool` on the stream, and whether the call
throws `std::ios_base::failure`.  On a stream that is not good the sentry sets
`failbit` and nothing is written.  Otherwise the formatted characters go to the
stream buffer as far as it accepts them and the width is reset; if the buffer
refused a character, `badbit` is set. -/
def ostream.insert_bool_effect (os : ostream) (b : Bool) : ostream × Bool :=
  if !os.good then
    os.setstate { eofbit := false, failbit := true, badbit := false }
  else
    let text := os.formatted_bool b
    let written :=
      match os.room with
      | none => text
      | some n => text.take n
    let os1 : ostream :=
      { os with buf := os.buf ++ written, width := 0,
                room := os.room.map (fun n => n - written.length) }
    if written.length < text.length then
      os1.setstate { eofbit := false, failbit := false, badbit := true }
    else
      (os1, false)

/-- The insertion `os << b` for a `bool`: the stream after the call, or the
failure it throws. -/
def ostream.insert_bool (os : ostream) (b : Bool) : Except thrown ostream :=
  if (os.insert_bool_effect b).2 then .error .ios_failure
  else .ok (os.insert_bool_effect b).1

/-- A compile-time rejection, with the diagnostic of the failed check. -/
structure compile_error where
  message : String
deriving DecidableEq, Repr

/-- The value types an expression can have: this file's `boolean`, or the value
type of another domain (integer, text, ...). -/
inductive value_type where
  | boolean
  | other
deriving DecidableEq, Repr

/-- The member `_is_boolean` of a value type: `std::true_type` in `boolean` (line 56). -/
def value_type._is_boolean : value_type → Bool
  | .boolean => true
  | .other => false

/-- The operator tags `detail::or_` and `detail::and_` (lines 40-50). -/
inductive operator_tag where
  | or_
  | and_
deriving DecidableEq, Repr

/-- The member `_value_type` of an operator tag (lines 42 and 48). -/
def operator_tag._value_type : operator_tag → value_type
  | .or_ => .boolean
  | .and_ => .boolean

/-- The member `_name` of an operator tag (lines 43 and 49). -/
def operator_tag._name : operator_tag → String
  | .or_ => "OR"
  | .and_ => "AND"

/-- Expression objects.  `operand` is an expression of a type declared outside
this header, with the traits of that type; `binary_expression_t` and `not_t`
are the nodes the operators of this header return, holding copies of their
operands. -/
inductive expression where
  | operand (_value_type : value_type) (_is_multi_expression : Bool) (text : String)
  | binary_expression_t (lhs : expression) (op : operator_tag) (rhs : expression)
  | not_t (lhs : expression)
deriving DecidableEq, Repr

/-- Modelled from the spec: the value type of an expression; the node types
`binary_expression_t` and `not_t` live in `sqlpp11/detail/basic_operators.h`
and its includes, which are not among the sources.  A binary node has the
value type of its operator tag and a negation node is boolean-typed. -/
def expression._value_type : expression → value_type
  | .operand vt _ _ => vt
  | .binary_expression_t _ op _ => op._value_type
  | .not_t _ => .boolean

/-- Modelled from the spec: the trait `is_boolean_t` of `sqlpp11/type_traits.h`
(not among the sources): the type tag of the expression marks the boolean domain. -/
def is_boolean_t (e : expression) : Bool :=
  e._value_type._is_boolean

/-- Modelled from the spec: the trait `is_multi_expression_t` of
`sqlpp11/type_traits.h` (not among the sources): the expression yields more
than one row or column.  The nodes built by the boolean operators are scalar. -/
def is_multi_expression_t : expression → Bool
  | .operand _ m _ => m
  | .binary_expression_t _ _ _ => false
  | .not_t _ => false

namespace boolean

/-- Fields of `boolean::_parameter_t` (lines 116-119). -/
structure _parameter_t where
  _trivial_value_is_null : Bool
  _value : Bool
  _is_null : Bool
deriving DecidableEq, Repr

namespace _parameter_t

/-- The accessor `value()` (lines 109-112). -/
def value (self : _parameter_t) : Bool :=
  self._value

/-- The accessor `is_null()` (lines 104-107). -/
def is_null (self : _parameter_t) : Bool :=
  self._is_null

/-- The member `_is_trivial()` (line 102). -/
def _is_trivial (self : _parameter_t) : Bool :=
  self.value == false

/-- The constructor `_parameter_t(const std::true_type&)` (lines 65-69).  The
initialiser of `_is_null` runs last and reads the two members set before it. -/
def ctor_true_type : _parameter_t :=
  let trivial_value_is_null := true
  let value := false
  let under_construction : _parameter_t :=
    { _trivial_value_is_null := trivial_value_is_null, _value := value, _is_null := false }
  { under_construction with _is_null := (trivial_value_is_null && under_construction._is_trivial) }

/-- The constructor `_parameter_t(const std::false_type&)` (lines 71-75). -/
def ctor_false_type : _parameter_t :=
  let trivial_value_is_null := false
  let value := false
  let under_construction : _parameter_t :=
    { _trivial_value_is_null := trivial_value_is_null, _value := value, _is_null := false }
  { under_construction with _is_null := (trivial_value_is_null && under_construction._is_trivial) }

/-- The constructor `_parameter_t(const _cpp_value_type& value)` (lines 77-80).
Its initialiser list has no entry for `_trivial_value_is_null`, so that member
keeps whatever the storage held; `indeterminate` is that content. -/
def ctor_value (indeterminate : Bool) (value : Bool) : _parameter_t :=
  let trivial_value_is_null := indeterminate
  let under_construction : _parameter_t :=
    { _trivial_value_is_null := trivial_value_is_null, _value := value, _is_null := false }
  { under_construction with _is_null := (trivial_value_is_null && under_construction._is_trivial) }

/-- Overload selection between the two tag constructors: `std::true_type` for
`true`, `std::false_type` for `false`. -/
def ctor_policy : Bool → _parameter_t
  | true => ctor_true_type
  | false => ctor_false_type

/-- The assignment `operator=(const _cpp_value_type& value)` (lines 82-87). -/
def assign_value (self : _parameter_t) (value : Bool) : _parameter_t :=
  let s1 := { self with _value := value }
  { s1 with _is_null := (s1._trivial_value_is_null && s1._is_trivial) }

/-- The assignment `operator=(const std::nullptr_t&)` (lines 89-94). -/
def assign_null (self : _parameter_t) : _parameter_t :=
  let s1 := { self with _value := false }
  { s1 with _is_null := true }

/-- The member `serialize(std::ostream& os, Db& db)` (lines 96-100): `os << value()`. -/
def serialize {Db : Type} (self : _parameter_t) (os : ostream) (_db : Db) :
    Except thrown ostream :=
  os.insert_bool self.value

end _parameter_t

/-- One re-binding of a parameter holder: a concrete value or null. -/
inductive holder_op where
  | assign_value (value : Bool)
  | assign_null
deriving DecidableEq, Repr

/-- Apply one assignment to a holder. -/
def holder_op.apply (s : _parameter_t) : holder_op → _parameter_t
  | .assign_value v => s.assign_value v
  | .assign_null => s.assign_null

/-- Apply a sequence of assignments, first one first. -/
def run_holder (ops : List holder_op) (s : _parameter_t) : _parameter_t :=
  ops.foldl holder_op.apply s

/-- Fields of `boolean::_result_entry_t` (lines 180-183). -/
structure _result_entry_t where
  _is_valid : Bool
  _is_null : Bool
  _value : Bool
deriving DecidableEq, Repr

namespace _result_entry_t

/-- The default constructor `_result_entry_t()` (lines 124-128). -/
def ctor : _result_entry_t :=
  { _is_valid := false, _is_null := true, _value := false }

/-- The constructor `_result_entry_t(const char* data, size_t)` (lines 130-134). -/
def ctor_data (data : Option (List Nat)) (_len : Nat) : _result_entry_t :=
  let is_valid := true
  let is_null := data.isNone
  let value :=
    if is_null then false
    else
      match data with
      | some bs => (c_index bs 0 == 't'.toNat || c_index bs 0 == '1'.toNat)
      | none => false -- not reached: `is_null` holds for a null pointer
  { _is_valid := is_valid, _is_null := is_null, _value := value }

/-- The member `assign(const char* data, size_t)` (lines 136-141). -/
def assign (self : _result_entry_t) (data : Option (List Nat)) (_len : Nat) :
    _result_entry_t :=
  let s1 := { self with _is_valid := true }
  let s2 := { s1 with _is_null := data.isNone }
  { s2 with _value :=
      if s2._is_null then false
      else
        match data with
        | some bs => (c_index bs 0 == 't'.toNat || c_index bs 0 == '1'.toNat)
        | none => false -- not reached: `_is_null` holds for a null pointer
  }

/-- The member `invalidate()` (lines 143-148); `_value = 0` stores `false`. -/
def invalidate (self : _result_entry_t) : _result_entry_t :=
  let s1 := { self with _is_valid := false }
  let s2 := { s1 with _is_null := true }
  { s2 with _value := false }

/-- The accessor `is_null()` (lines 158-163). -/
def is_null (self : _result_entry_t) : Except exception Bool :=
  if !self._is_valid then
    .error ⟨"accessing is_null in non-existing row"⟩
  else
    .ok self._is_null

/-- The accessor `value()` (lines 165-170). -/
def value (self : _result_entry_t) : Except exception Bool :=
  if !self._is_valid then
    .error ⟨"accessing value in non-existing row"⟩
  else
    .ok self._value

/-- The member `serialize(std::ostream& os, Db& db)` (lines 150-154): `os << value()`;
an exception thrown by `value()` leaves the function before anything is written. -/
def serialize {Db : Type} (self : _result_entry_t) (os : ostream) (_db : Db) :
    Except thrown ostream :=
  match self.value with
  | .error e => .error (.sqlpp_exception e)
  | .ok v => os.insert_bool v

/-- The member `_is_trivial()` (line 156): `value() == false`. -/
def _is_trivial (self : _result_entry_t) : Except exception Bool :=
  match self.value with
  | .error e => .error e
  | .ok v => .ok (v == false)

end _result_entry_t

/-- The address of a `bool` member of a result entry, as `&_value` or
`&_is_null` denotes it. -/
inductive member_ref where
  | _is_valid
  | _is_null
  | _value
deriving DecidableEq, Repr

/-- A write `*ref = b` through the address of a member. -/
def member_ref.store (r : _result_entry_t) : member_ref → Bool → _result_entry_t
  | ._is_valid, b => { r with _is_valid := b }
  | ._is_null, b => { r with _is_null := b }
  | ._value, b => { r with _value := b }

/-- The member `bind(Target& target, size_t i)` (lines 174-178).  `Target` is
the template parameter and `bind_boolean_result` its member function; the call
hands over the addresses of `_value` and `_is_null`, in this order.  `bind`
itself writes to no member; what is written through the addresses comes from
the driver, later. -/
def _result_entry_t.bind {Target : Type}
    (bind_boolean_result : Target → Nat → member_ref → member_ref → Target)
    (self : _result_entry_t) (target : Target) (i : Nat) : _result_entry_t × Target :=
  (self, bind_boolean_result target i ._value ._is_null)

/-- One registration in a row-fetch buffer: a column index and the storage for
the value and for the null flag. -/
structure registration where
  index : Nat
  value_storage : member_ref
  is_null_storage : member_ref
deriving DecidableEq, Repr

/-- Modelled from the spec: the driver's row-fetch buffer, the `Target` of
`bind`, which belongs to the database connector and is not among the sources.
It keeps the registrations made on it, oldest first. -/
structure row_buffer where
  registrations : List registration
deriving DecidableEq, Repr

/-- Modelled from the spec: `Target::bind_boolean_result`, not among the
sources: it registers the storage at the column index, for a subsequent fetch
to write into. -/
def row_buffer.bind_boolean_result (t : row_buffer) (i : Nat)
    (value_storage is_null_storage : member_ref) : row_buffer :=
  { registrations := t.registrations ++ [⟨i, value_storage, is_null_storage⟩] }

/-- Modelled from the spec: a fetch by the driver, not among the sources: it
writes the column's value and null flag into the registered storage. -/
def registration.fetch (reg : registration) (r : _result_entry_t) (value is_null : Bool) :
    _result_entry_t :=
  reg.is_null_storage.store (reg.value_storage.store r value) is_null

/-- One step of a cursor on a result decoder: a fetched row (`assign`), or
running past the last row (`invalidate`). -/
inductive decoder_op where
  | assign (data : Option (List Nat)) (len : Nat)
  | invalidate
deriving DecidableEq, Repr

/-- Apply one cursor step to a decoder. -/
def decoder_op.apply (r : _result_entry_t) : decoder_op → _result_entry_t
  | .assign data len => r.assign data len
  | .invalidate => r.invalidate

/-- Apply a sequence of cursor steps, first step first. -/
def run_decoder (ops : List decoder_op) (r : _result_entry_t) : _result_entry_t :=
  ops.foldl decoder_op.apply r

/-- Modelled from the spec: the constraint checker
`_constraint<T> = operand_t<T, is_boolean_t>` (line 187); `operand_t` is declared
in `sqlpp11/type_traits.h`, not among the sources.  It accepts an operand whose
type tag is the boolean domain and yields the operand type to store in the
node; any other operand makes the expression ill-formed. -/
def _constraint (t : expression) : Except compile_error expression :=
  if is_boolean_t t then .ok t else .error ⟨"invalid operand type"⟩

namespace operators

/-- The member `operators<Base>::operator and(T&& t)` (lines 192-197); `base` is
`*static_cast<const Base*>(this)`.  The return type names `_constraint<T>::type`,
the body asserts on `Base` only. -/
def operator_and (base : expression) (t : expression) : Except compile_error expression :=
  match _constraint t with
  | .error e => .error e
  | .ok rhs =>
    if is_multi_expression_t base then
      .error ⟨"multi-expression cannot be used as left hand side operand"⟩
    else
      .ok (.binary_expression_t base .and_ rhs)

/-- The member `operators<Base>::operator or(T&& t)` (lines 199-204). -/
def operator_or (base : expression) (t : expression) : Except compile_error expression :=
  match _constraint t with
  | .error e => .error e
  | .ok rhs =>
    if is_multi_expression_t base then
      .error ⟨"multi-expression cannot be used as left hand side operand"⟩
    else
      .ok (.binary_expression_t base .or_ rhs)

/-- The member `operators<Base>::operator not()` (lines 206-210). -/
def operator_not (base : expression) : Except compile_error expression :=
  if is_multi_expression_t base then
    .error ⟨"multi-expression cannot be as operand for operator not"⟩
  else
    .ok (.not_t base)

end operators

end boolean

/-- A stream on which `os << b` writes the bare text of `b`: good state, no
field width, no `showpos`, no `showbase`, the classic names, and a buffer that
takes the text. -/
def ostream.plain (os : ostream) : Bool :=
  os.good && os.width == 0 && !os.showpos && !os.showbase
    && os.truename == c_str "true" && os.falsename == c_str "false"
    && (match os.room with
        | none => true
        | some n => decide (5 ≤ n))

/-- The spec's decoding rule for a raw column: truthy iff the data is present
and its first byte is ASCII `t` (116) or `1` (49). -/
def spec_truthy : Option (List Nat) → Bool
  | some (b :: _) => b == 116 || b == 49
  | _ => false

/-- A computation ended by throwing. -/
def raises {ε α : Type} : Except ε α → Prop
  | .error _ => True
  | .ok _ => False

instance {ε α : Type} (x : Except ε α) : Decidable (raises x) := by
  cases x <;> unfold raises <;> infer_instance

/-! ## Result decoder: decoding and access -/

open boolean

theorem spec_truthy_iff (data : Option (List Nat)) :
    spec_truthy data = true ↔
      ∃ b rest, data = some (b :: rest) ∧ (b = 't'.toNat ∨ b = '1'.toNat) := by
  rcases data with _ | bs
  · simp [spec_truthy]
  · rcases bs with _ | ⟨b, rest⟩
    · simp [spec_truthy]
    · simp [spec_truthy]

theorem assign_eq (prior : _result_entry_t) (data : Option (List Nat)) (len : Nat) :
    prior.assign data len =
      { _is_valid := true, _is_null := data.isNone, _value := spec_truthy data } := by
  rcases data with _ | bs
  · simp [_result_entry_t.assign, spec_truthy]
  · rcases bs with _ | ⟨b, rest⟩
    · simp [_result_entry_t.assign, spec_truthy, c_index]
    · simp [_result_entry_t.assign, spec_truthy, c_index]

theorem ctor_data_eq (data : Option (List Nat)) (len : Nat) :
    _result_entry_t.ctor_data data len =
      { _is_valid := true, _is_null := data.isNone, _value := spec_truthy data } := by
  rcases data with _ | bs
  · simp [_result_entry_t.ctor_data, spec_truthy]
  · rcases bs with _ | ⟨b, rest⟩
    · simp [_result_entry_t.ctor_data, spec_truthy, c_index]
    · simp [_result_entry_t.ctor_data, spec_truthy, c_index]

/-- C1: for every raw column input (a null pointer or any byte sequence, the
empty one included), every length and every prior state, the constructor from
raw bytes and `assign` give the same state: valid, null exactly when the data
is absent, and with value true exactly when the data is present and its first
byte is `t` or `1`.  So "t" and "1" decode to (true, not null), "f", "0" and ""
to (false, not null), and the null pointer to (false, null). -/
theorem result_entry_decode (prior : _result_entry_t) (data : Option (List Nat)) (len : Nat) :
    _result_entry_t.ctor_data data len = prior.assign data len
    ∧ (prior.assign data len)._is_valid = true
    ∧ (prior.assign data len)._is_null = data.isNone
    ∧ ((prior.assign data len)._value = true ↔
        ∃ b rest, data = some (b :: rest) ∧ (b = 't'.toNat ∨ b = '1'.toNat))
    ∧ prior.assign (some (c_str "t")) len = ⟨true, false, true⟩
    ∧ prior.assign (some (c_str "1")) len = ⟨true, false, true⟩
    ∧ prior.assign (some (c_str "f")) len = ⟨true, false, false⟩
    ∧ prior.assign (some (c_str "0")) len = ⟨true, false, false⟩
    ∧ prior.assign (some (c_str "")) len = ⟨true, false, false⟩
    ∧ prior.assign none len = ⟨true, true, false⟩ := by
  refine ⟨?_, ?_, ?_, ?_, ?_, ?_, ?_, ?_, ?_, ?_⟩
  · rw [ctor_data_eq, assign_eq]
  · rw [assign_eq]
  · rw [assign_eq]
  · rw [assign_eq]; exact spec_truthy_iff data
  all_goals rw [assign_eq]; rfl

/-- C2: `value()` throws exactly when `_is_valid` is false, and so does
`is_null()`; on a valid decoder they return the stored value and null flag.  A
default-constructed or invalidated decoder throws on both, and after any
`assign` both return. -/
theorem result_entry_access (r : _result_entry_t) (data : Option (List Nat)) (len : Nat) :
    (r.value = .error ⟨"accessing value in non-existing row"⟩ ↔ r._is_valid = false)
    ∧ (r.is_null = .error ⟨"accessing is_null in non-existing row"⟩ ↔ r._is_valid = false)
    ∧ (raises r.value ↔ r._is_valid = false)
    ∧ (raises r.is_null ↔ r._is_valid = false)
    ∧ ((r.value = .ok r._value ∧ r.is_null = .ok r._is_null) ↔ r._is_valid = true)
    ∧ raises _result_entry_t.ctor.value ∧ raises _result_entry_t.ctor.is_null
    ∧ raises r.invalidate.value ∧ raises r.invalidate.is_null
    ∧ (r.assign data len).value = .ok (r.assign data len)._value
    ∧ (r.assign data len).is_null = .ok (r.assign data len)._is_null := by
  rcases r with ⟨valid, null, val⟩
  cases valid <;>
    simp [_result_entry_t.value, _result_entry_t.is_null, raises, _result_entry_t.ctor,
      _result_entry_t.invalidate, _result_entry_t.assign]

/-! ## Parameter holder -/

/-- C3: on a holder with policy flag `p`, whatever its current value and null
flag, assigning the value `v` gives `value() == v` and
`is_null() == (p and v == false)`. -/
theorem parameter_assign_value (p v cur_value cur_null : Bool) :
    ((_parameter_t.mk p cur_value cur_null).assign_value v).value = v
    ∧ ((_parameter_t.mk p cur_value cur_null).assign_value v).is_null = (p && (v == false)) := by
  simp [_parameter_t.assign_value, _parameter_t.value, _parameter_t.is_null,
    _parameter_t._is_trivial]

/-- C4: a holder constructed from the policy flag `p` (`std::true_type` for
true, `std::false_type` for false) has `value() == false` and `is_null() == p`. -/
theorem parameter_ctor_policy (p : Bool) :
    (_parameter_t.ctor_policy p).value = false
    ∧ (_parameter_t.ctor_policy p).is_null = p
    ∧ _parameter_t.ctor_true_type.is_null = true
    ∧ _parameter_t.ctor_false_type.is_null = false := by
  cases p <;> decide

/-- C5: on every holder state, assigning null gives `is_null() == true` and
`value() == false`. -/
theorem parameter_assign_null (s : _parameter_t) :
    s.assign_null.is_null = true ∧ s.assign_null.value = false := by
  simp [_parameter_t.assign_null, _parameter_t.value, _parameter_t.is_null]

/-- C6: `invalidate()` produces the default-constructed state (not valid, null,
value false) from every state; it is idempotent and its result does not depend
on the state it is applied to. -/
theorem result_entry_invalidate (r r2 : _result_entry_t) :
    r.invalidate = _result_entry_t.ctor
    ∧ r.invalidate = ⟨false, true, false⟩
    ∧ r.invalidate.invalidate = r.invalidate
    ∧ r.invalidate = r2.invalidate := by
  simp [_result_entry_t.invalidate, _result_entry_t.ctor]

/-! ## Serialising a holder and decoding the text again -/

theorem bool_text_truthy (boolalpha v : Bool) :
    spec_truthy (some (bool_text boolalpha v)) = v := by
  cases boolalpha <;> cases v <;> rfl

theorem insert_bool_classic (boolalpha v : Bool) (buf : List Nat) :
    (ostream.classic boolalpha buf).insert_bool v
      = .ok (ostream.classic boolalpha (buf ++ bool_text boolalpha v)) := by
  cases boolalpha <;> cases v <;> rfl

theorem formatted_bool_plain (os : ostream) (v : Bool) (h : os.plain = true) :
    os.formatted_bool v = bool_text os.boolalpha v := by
  simp only [ostream.plain, Bool.and_eq_true, Bool.not_eq_true', beq_iff_eq] at h
  obtain ⟨⟨⟨⟨⟨⟨_, hw⟩, hp⟩, hb⟩, ht⟩, hf⟩, _⟩ := h
  cases v <;> cases hba : os.boolalpha <;> cases hbase : os.base <;>
    simp [ostream.formatted_bool, ostream.pad, ostream.sign_or_base, ostream.digits,
      bool_text, hw, hp, hb, ht, hf, hba, hbase] <;>
    cases os.adjust <;> simp

theorem bool_text_length (boolalpha v : Bool) : (bool_text boolalpha v).length ≤ 5 := by
  cases boolalpha <;> cases v <;> decide

theorem insert_bool_plain (os : ostream) (v : Bool) (h : os.plain = true) :
    ∃ os1, os.insert_bool v = .ok os1 ∧ os1.buf = os.buf ++ bool_text os.boolalpha v := by
  have hf := formatted_bool_plain os v h
  have hlen := bool_text_length os.boolalpha v
  simp only [ostream.plain, Bool.and_eq_true] at h
  obtain ⟨⟨⟨⟨⟨⟨hg, _⟩, _⟩, _⟩, _⟩, _⟩, hr⟩ := h
  cases hroom : os.room with
  | none =>
    refine ⟨{ os with buf := os.buf ++ bool_text os.boolalpha v, width := 0,
                      room := none }, ?_, rfl⟩
    simp [ostream.insert_bool, ostream.insert_bool_effect, hg, hroom, hf]
  | some n =>
    rw [hroom] at hr
    have hn : 5 ≤ n := by simpa using hr
    have htake : List.take n (bool_text os.boolalpha v) = bool_text os.boolalpha v :=
      List.take_of_length_le (by omega)
    refine ⟨{ os with buf := os.buf ++ bool_text os.boolalpha v, width := 0,
                      room := some (n - (bool_text os.boolalpha v).length) }, ?_, rfl⟩
    simp [ostream.insert_bool, ostream.insert_bool_effect, hg, hroom, hf, htake]

/-- C7, as stated, fails: on a stream with field width 3 the holder with value
true serialises to two spaces and `1`, and these bytes decode to value false. -/
theorem padded_text_decodes_false :
    (_parameter_t.ctor_false_type.assign_value true).value = true
    ∧ (_parameter_t.ctor_false_type.assign_value true).serialize
        { ostream.classic false [] with width := 3 } ()
        = .ok (ostream.classic false (c_str "  1"))
    ∧ (_result_entry_t.ctor_data (some (c_str "  1")) 3).value = .ok false
    ∧ (_result_entry_t.ctor_data (some (c_str "  1")) 3).is_null = .ok false
    ∧ (_result_entry_t.ctor.assign (some (c_str "  1")) 3).value = .ok false :=
  ⟨rfl, rfl, rfl, rfl, rfl⟩

/-- C7, amended: round trip on a plainly formatted stream (good state, no field
width, no `showpos`, no `showbase`, classic locale, room in the buffer; either
`boolalpha` mode).  For every holder, `serialize` succeeds and appends the text
of the value, and that text, fed as non-null column bytes to the result decoder
through the constructor or through `assign`, decodes to the holder's value and
to not-null; without `boolalpha` the text is "1" for true and "0" for false. -/
theorem serialize_decode_roundtrip {Db : Type} (p : _parameter_t) (os : ostream) (db : Db)
    (prior : _result_entry_t) (len : Nat) (h : os.plain = true) :
    (∃ os1, p.serialize os db = .ok os1
        ∧ os1.buf = os.buf ++ bool_text os.boolalpha p.value)
    ∧ (_result_entry_t.ctor_data (some (bool_text os.boolalpha p.value)) len).value
        = .ok p.value
    ∧ (_result_entry_t.ctor_data (some (bool_text os.boolalpha p.value)) len).is_null
        = .ok false
    ∧ (prior.assign (some (bool_text os.boolalpha p.value)) len).value = .ok p.value
    ∧ (prior.assign (some (bool_text os.boolalpha p.value)) len).is_null = .ok false
    ∧ bool_text false true = c_str "1" ∧ bool_text false false = c_str "0" := by
  refine ⟨insert_bool_plain os p.value h, ?_, ?_, ?_, ?_, rfl, rfl⟩
  · rw [ctor_data_eq]; simp [_result_entry_t.value, bool_text_truthy]
  · rw [ctor_data_eq]; simp [_result_entry_t.is_null]
  · rw [assign_eq]; simp [_result_entry_t.value, bool_text_truthy]
  · rw [assign_eq]; simp [_result_entry_t.is_null]

theorem serialize_decode_roundtrip_witness :
    (∃ os1, (_parameter_t.ctor_false_type.assign_value true).serialize
          (ostream.classic false []) () = .ok os1
        ∧ os1.buf = (ostream.classic false []).buf
            ++ bool_text (ostream.classic false []).boolalpha
                (_parameter_t.ctor_false_type.assign_value true).value)
    ∧ (_result_entry_t.ctor_data (some (bool_text (ostream.classic false []).boolalpha
          (_parameter_t.ctor_false_type.assign_value true).value)) 1).value
        = .ok (_parameter_t.ctor_false_type.assign_value true).value
    ∧ (_result_entry_t.ctor_data (some (bool_text (ostream.classic false []).boolalpha
          (_parameter_t.ctor_false_type.assign_value true).value)) 1).is_null
        = .ok false
    ∧ (_result_entry_t.ctor.assign (some (bool_text (ostream.classic false []).boolalpha
          (_parameter_t.ctor_false_type.assign_value true).value)) 1).value
        = .ok (_parameter_t.ctor_false_type.assign_value true).value
    ∧ (_result_entry_t.ctor.assign (some (bool_text (ostream.classic false []).boolalpha
          (_parameter_t.ctor_false_type.assign_value true).value)) 1).is_null
        = .ok false
    ∧ bool_text false true = c_str "1" ∧ bool_text false false = c_str "0" :=
  serialize_decode_roundtrip (_parameter_t.ctor_false_type.assign_value true)
    (ostream.classic false []) () _result_entry_t.ctor 1 rfl

/-! ## Sequences of cursor steps -/

theorem run_decoder_snoc (ops : List decoder_op) (op : decoder_op) (r : _result_entry_t) :
    run_decoder (ops ++ [op]) r = op.apply (run_decoder ops r) := by
  simp [run_decoder, List.foldl_append]

/-- C8: after any finite sequence of `assign` and `invalidate` steps on a
default-constructed decoder only the last step is observable: with no step, or
with `invalidate` last, both accessors throw; with `assign(d)` last, `value()`
and `is_null()` return the decoding of `d`.  The cursor scenario of the spec:
"t" gives (true, false), then the null marker gives (false, true), then
`invalidate` makes both accessors throw. -/
theorem run_decoder_last (ops : List decoder_op) (d : Option (List Nat)) (len : Nat) :
    raises (run_decoder [] _result_entry_t.ctor).value
    ∧ raises (run_decoder [] _result_entry_t.ctor).is_null
    ∧ raises (run_decoder (ops ++ [.invalidate]) _result_entry_t.ctor).value
    ∧ raises (run_decoder (ops ++ [.invalidate]) _result_entry_t.ctor).is_null
    ∧ (run_decoder (ops ++ [.assign d len]) _result_entry_t.ctor).value
        = .ok (spec_truthy d)
    ∧ (run_decoder (ops ++ [.assign d len]) _result_entry_t.ctor).is_null
        = .ok d.isNone
    ∧ (run_decoder (ops ++ [.assign d len]) _result_entry_t.ctor).value
        = (_result_entry_t.ctor_data d len).value
    ∧ (run_decoder (ops ++ [.assign d len]) _result_entry_t.ctor).is_null
        = (_result_entry_t.ctor_data d len).is_null
    ∧ (run_decoder [.assign (some (c_str "t")) 1] _result_entry_t.ctor).value = .ok true
    ∧ (run_decoder [.assign (some (c_str "t")) 1] _result_entry_t.ctor).is_null = .ok false
    ∧ (run_decoder [.assign (some (c_str "t")) 1, .assign none 0]
        _result_entry_t.ctor).value = .ok false
    ∧ (run_decoder [.assign (some (c_str "t")) 1, .assign none 0]
        _result_entry_t.ctor).is_null = .ok true
    ∧ raises (run_decoder [.assign (some (c_str "t")) 1, .assign none 0, .invalidate]
        _result_entry_t.ctor).value
    ∧ raises (run_decoder [.assign (some (c_str "t")) 1, .assign none 0, .invalidate]
        _result_entry_t.ctor).is_null := by
  refine ⟨by decide, by decide, ?_, ?_, ?_, ?_, ?_, ?_, rfl, rfl, rfl, rfl,
    by decide, by decide⟩
  · rw [run_decoder_snoc]
    simp [decoder_op.apply, _result_entry_t.invalidate, _result_entry_t.value, raises]
  · rw [run_decoder_snoc]
    simp [decoder_op.apply, _result_entry_t.invalidate, _result_entry_t.is_null, raises]
  · rw [run_decoder_snoc]
    simp [decoder_op.apply, assign_eq, _result_entry_t.value]
  · rw [run_decoder_snoc]
    simp [decoder_op.apply, assign_eq, _result_entry_t.is_null]
  · rw [run_decoder_snoc]
    simp [decoder_op.apply, assign_eq, ctor_data_eq]
  · rw [run_decoder_snoc]
    simp [decoder_op.apply, assign_eq, ctor_data_eq]

/-! ## Constructing a holder from a value -/

/-- C9: the constructor from a value stores `v` and computes the null flag as
`policy and v == false`, but its policy member `_trivial_value_is_null` is never
initialised: it is whatever the storage held (`u`), and so is `is_null()` for a
trivial value.  Constructing from `false` gives a null holder for one content
and a non-null holder for the other, and later assignments inherit it. -/
theorem parameter_ctor_value (u v w : Bool) :
    (_parameter_t.ctor_value u v)._trivial_value_is_null = u
    ∧ (_parameter_t.ctor_value u v).value = v
    ∧ (_parameter_t.ctor_value u v).is_null = (u && (v == false))
    ∧ (_parameter_t.ctor_value u v).is_null
        = ((_parameter_t.ctor_value u v)._trivial_value_is_null && (v == false))
    ∧ ((_parameter_t.ctor_value u v).assign_value w)._trivial_value_is_null
        = (_parameter_t.ctor_value u v)._trivial_value_is_null
    ∧ ((_parameter_t.ctor_value u v).assign_value w).value = w
    ∧ ((_parameter_t.ctor_value u v).assign_value w).is_null
        = ((_parameter_t.ctor_value u v)._trivial_value_is_null && (w == false))
    ∧ ((_parameter_t.ctor_value u v).assign_value w).is_null = (u && (w == false))
    ∧ (_parameter_t.ctor_value true false).is_null = true
    ∧ (_parameter_t.ctor_value false false).is_null = false
    ∧ ((_parameter_t.ctor_value true true).assign_value false).is_null = true
    ∧ ((_parameter_t.ctor_value false true).assign_value false).is_null = false := by
  simp [_parameter_t.ctor_value, _parameter_t.assign_value, _parameter_t.value,
    _parameter_t.is_null, _parameter_t._is_trivial]

/-! ## Multi-valued operands of the boolean operators -/

/-- C10, as stated, fails: with a scalar boolean left operand and a multi-valued
boolean right operand, `operator and` and `operator or` both build their node. -/
theorem multi_rhs_accepted :
    is_multi_expression_t (.operand .boolean true "any(select)") = true
    ∧ operators.operator_and (.operand .boolean false "a") (.operand .boolean true "any(select)")
        = .ok (.binary_expression_t (.operand .boolean false "a") .and_
            (.operand .boolean true "any(select)"))
    ∧ operators.operator_or (.operand .boolean false "a") (.operand .boolean true "any(select)")
        = .ok (.binary_expression_t (.operand .boolean false "a") .or_
            (.operand .boolean true "any(select)")) :=
  ⟨rfl, rfl, rfl⟩

/-- C10, amended: `operator and` and `operator or` are rejected exactly when the
left operand is multi-valued or the right operand fails the boolean constraint,
so a multi-valued left operand is always rejected and a multi-valued right
operand is not a reason for rejection; `operator not` is rejected exactly when
its operand is multi-valued.  When not rejected, the node is built. -/
theorem multi_lhs_rejected (l r : expression) :
    (raises (operators.operator_and l r) ↔
      (is_multi_expression_t l = true ∨ is_boolean_t r = false))
    ∧ (raises (operators.operator_or l r) ↔
      (is_multi_expression_t l = true ∨ is_boolean_t r = false))
    ∧ (raises (operators.operator_not l) ↔ is_multi_expression_t l = true)
    ∧ (operators.operator_and l r = .ok (.binary_expression_t l .and_ r) ↔
      (is_multi_expression_t l = false ∧ is_boolean_t r = true))
    ∧ (operators.operator_or l r = .ok (.binary_expression_t l .or_ r) ↔
      (is_multi_expression_t l = false ∧ is_boolean_t r = true))
    ∧ (operators.operator_not l = .ok (.not_t l) ↔ is_multi_expression_t l = false) := by
  unfold operators.operator_and operators.operator_or operators.operator_not _constraint
  cases is_multi_expression_t l <;> cases is_boolean_t r <;> simp [raises]

/-! ## The boolean constraint on operands -/

/-- C11, as stated, fails: `operator not` on a scalar operand of a non-boolean
domain builds its node, `operator and` with such an operand on the left builds
its node, and `operator and` on two boolean-typed operands is rejected when the
left one is multi-valued. -/
theorem unconstrained_base_accepted :
    is_boolean_t (.operand .other false "n") = false
    ∧ operators.operator_not (.operand .other false "n")
        = .ok (.not_t (.operand .other false "n"))
    ∧ operators.operator_and (.operand .other false "n") (.operand .boolean false "b")
        = .ok (.binary_expression_t (.operand .other false "n") .and_
            (.operand .boolean false "b"))
    ∧ is_boolean_t (.operand .boolean true "m") = true
    ∧ raises (operators.operator_and (.operand .boolean true "m")
        (.operand .boolean false "b")) :=
  ⟨rfl, rfl, rfl, rfl, by decide⟩

/-- C11, amended: `operator and` and `operator or` pass their right operand
through `_constraint`: a right operand of a non-boolean domain is rejected, and
with a boolean-typed right operand and a left operand that is not multi-valued
the node is built and is boolean-typed.  The left operand and the operand of
`operator not` are not passed through `_constraint`: `operator not` builds a
boolean-typed node exactly when its operand is not multi-valued. -/
theorem rhs_constraint (l r : expression) :
    (raises (_constraint r) ↔ is_boolean_t r = false)
    ∧ (is_boolean_t r = false → raises (operators.operator_and l r))
    ∧ (is_boolean_t r = false → raises (operators.operator_or l r))
    ∧ ((∃ e, operators.operator_and l r = .ok e ∧ is_boolean_t e = true) ↔
        (is_boolean_t r = true ∧ is_multi_expression_t l = false))
    ∧ ((∃ e, operators.operator_or l r = .ok e ∧ is_boolean_t e = true) ↔
        (is_boolean_t r = true ∧ is_multi_expression_t l = false))
    ∧ ((∃ e, operators.operator_not l = .ok e ∧ is_boolean_t e = true) ↔
        is_multi_expression_t l = false)
    ∧ (∀ e, operators.operator_and l r = .ok e → is_boolean_t e = true)
    ∧ (∀ e, operators.operator_or l r = .ok e → is_boolean_t e = true)
    ∧ (∀ e, operators.operator_not l = .ok e → is_boolean_t e = true) := by
  unfold operators.operator_and operators.operator_or operators.operator_not _constraint
  cases hm : is_multi_expression_t l <;> cases hb : is_boolean_t r <;>
    simp [raises, is_boolean_t, expression._value_type, operator_tag._value_type,
      value_type._is_boolean]

/-! ## The nodes the operators build -/

/-- C12: when the construction is well-formed (left operand not multi-valued,
right operand boolean-typed), `operator and` builds the binary node with left
operand `l`, right operand `r`, operator name "AND" and boolean value type,
`operator or` the same node with operator name "OR", and `operator not` the
negation node with operand `l`; the operands are stored as given. -/
theorem operator_nodes (l r : expression) (hl : is_multi_expression_t l = false)
    (hr : is_boolean_t r = true) :
    operators.operator_and l r = .ok (.binary_expression_t l .and_ r)
    ∧ operators.operator_or l r = .ok (.binary_expression_t l .or_ r)
    ∧ operators.operator_not l = .ok (.not_t l)
    ∧ operator_tag.and_._name = "AND"
    ∧ operator_tag.or_._name = "OR"
    ∧ (expression.binary_expression_t l .and_ r)._value_type = .boolean
    ∧ (expression.binary_expression_t l .or_ r)._value_type = .boolean := by
  simp [operators.operator_and, operators.operator_or, operators.operator_not, _constraint,
    hl, hr, operator_tag._name, expression._value_type, operator_tag._value_type]

theorem operator_nodes_witness :
    operators.operator_and (.operand .boolean false "a") (.operand .boolean false "b")
        = .ok (.binary_expression_t (.operand .boolean false "a") .and_
            (.operand .boolean false "b"))
    ∧ operators.operator_or (.operand .boolean false "a") (.operand .boolean false "b")
        = .ok (.binary_expression_t (.operand .boolean false "a") .or_
            (.operand .boolean false "b"))
    ∧ operators.operator_not (.operand .boolean false "a")
        = .ok (.not_t (.operand .boolean false "a"))
    ∧ operator_tag.and_._name = "AND"
    ∧ operator_tag.or_._name = "OR"
    ∧ (expression.binary_expression_t (.operand .boolean false "a") .and_
        (.operand .boolean false "b"))._value_type = .boolean
    ∧ (expression.binary_expression_t (.operand .boolean false "a") .or_
        (.operand .boolean false "b"))._value_type = .boolean :=
  operator_nodes (.operand .boolean false "a") (.operand .boolean false "b") rfl rfl

/-! ## What the operations of a parameter holder can throw -/

theorem run_holder_snoc (ops : List holder_op) (op : holder_op) (s : _parameter_t) :
    run_holder (ops ++ [op]) s = op.apply (run_holder ops s) := by
  simp [run_holder, List.foldl_append]

theorem holder_op_policy (op : holder_op) (s : _parameter_t) :
    (op.apply s)._trivial_value_is_null = s._trivial_value_is_null := by
  cases op <;> rfl

theorem run_holder_policy (ops : List holder_op) (s : _parameter_t) :
    (run_holder ops s)._trivial_value_is_null = s._trivial_value_is_null := by
  induction ops generalizing s with
  | nil => rfl
  | cons op rest ih =>
    have step : run_holder (op :: rest) s = run_holder rest (op.apply s) := rfl
    rw [step, ih, holder_op_policy]

theorem ctor_policy_flag (p : Bool) :
    (_parameter_t.ctor_policy p)._trivial_value_is_null = p := by
  cases p <;> rfl

/-- C14: on a holder constructed from policy `p`, after every finite sequence
of assignments the policy flag is still `p`, and `is_null()` is decided by the
last assignment alone: true after a null, `p and v == false` after the value
`v`, and `p` when nothing was assigned.  A forced null does not outlast a later
value assignment. -/
theorem run_holder_last (p v : Bool) (ops : List holder_op) :
    (run_holder ops (_parameter_t.ctor_policy p))._trivial_value_is_null = p
    ∧ (run_holder [] (_parameter_t.ctor_policy p)).is_null = p
    ∧ (run_holder (ops ++ [.assign_null]) (_parameter_t.ctor_policy p)).is_null = true
    ∧ (run_holder (ops ++ [.assign_value v]) (_parameter_t.ctor_policy p)).is_null
        = (p && (v == false))
    ∧ (run_holder (ops ++ [.assign_value v]) (_parameter_t.ctor_policy p)).value = v
    ∧ (run_holder (ops ++ [.assign_null, .assign_value v])
        (_parameter_t.ctor_policy p)).is_null = (p && (v == false))
    ∧ (run_holder [.assign_null, .assign_value true] (_parameter_t.ctor_policy p)).is_null
        = false := by
  have hpol : ∀ l : List holder_op,
      (run_holder l (_parameter_t.ctor_policy p))._trivial_value_is_null = p := by
    intro l
    rw [run_holder_policy, ctor_policy_flag]
  have hval : ∀ l : List holder_op,
      (run_holder (l ++ [.assign_value v]) (_parameter_t.ctor_policy p)).is_null
        = (p && (v == false)) := by
    intro l
    rw [run_holder_snoc]
    simp [holder_op.apply, _parameter_t.assign_value, _parameter_t.is_null,
      _parameter_t._is_trivial, _parameter_t.value, hpol l]
  refine ⟨hpol ops, ?_, ?_, hval ops, ?_, ?_, ?_⟩
  · cases p <;> rfl
  · rw [run_holder_snoc]; rfl
  · rw [run_holder_snoc]; rfl
  · have h := hval (ops ++ [.assign_null])
    simpa using h
  · cases p <;> rfl

/-! ## Serialising a decoded value -/

/-- C15: a valid result decoder with stored value `v` serialises to exactly what
a parameter holder with value `v` serialises to, on every stream: the insertion
of `v`, which on a plainly formatted stream appends the text of `v` ("1" or "0"
without `boolalpha`), whatever the null flag of either object, the holder's
policy and the context arguments. -/
theorem serialize_agrees {Db1 Db2 : Type} (v decoder_null policy holder_null : Bool)
    (os : ostream) (boolalpha : Bool) (buf : List Nat) (db1 : Db1) (db2 : Db2) :
    (_result_entry_t.mk true decoder_null v).serialize os db1
      = (_parameter_t.mk policy v holder_null).serialize os db2
    ∧ (_result_entry_t.mk true decoder_null v).serialize os db1 = os.insert_bool v
    ∧ (_result_entry_t.mk true decoder_null v).serialize (ostream.classic boolalpha buf) db1
      = .ok (ostream.classic boolalpha (buf ++ bool_text boolalpha v))
    ∧ (_parameter_t.mk policy v holder_null).serialize (ostream.classic boolalpha buf) db2
      = .ok (ostream.classic boolalpha (buf ++ bool_text boolalpha v))
    ∧ (_result_entry_t.mk true decoder_null true).serialize (ostream.classic false buf) db1
      = .ok (ostream.classic false (buf ++ c_str "1"))
    ∧ (_result_entry_t.mk true decoder_null false).serialize (ostream.classic false buf) db1
      = .ok (ostream.classic false (buf ++ c_str "0")) :=
  ⟨rfl, rfl, insert_bool_classic boolalpha v buf, insert_bool_classic boolalpha v buf,
    rfl, rfl⟩

/-! ## Binding a decoder to a row-fetch buffer -/

/-- C16: on every decoder state and column index `i`, `bind` makes one call on
the target, `bind_boolean_result(i, &_value, &_is_null)`, and leaves the decoder
as it was.  On a row-fetch buffer this adds exactly one registration, with
index `i`.  `_is_valid` is not among the registered storage, so writes through
that storage do not change it, and a default-constructed decoder still throws
on both accessors after `bind`. -/
theorem bind_registers {Target : Type}
    (bind_boolean_result : Target → Nat → member_ref → member_ref → Target)
    (r : _result_entry_t) (target : Target) (t : row_buffer) (i : Nat) (b1 b2 : Bool) :
    (r.bind bind_boolean_result target i).2 = bind_boolean_result target i ._value ._is_null
    ∧ (r.bind bind_boolean_result target i).1 = r
    ∧ (r.bind row_buffer.bind_boolean_result t i).2.registrations
        = t.registrations ++ [⟨i, ._value, ._is_null⟩]
    ∧ (r.bind row_buffer.bind_boolean_result t i).2.registrations.length
        = t.registrations.length + 1
    ∧ (r.bind row_buffer.bind_boolean_result t i).1 = r
    ∧ (registration.fetch ⟨i, ._value, ._is_null⟩ r b1 b2)._is_valid = r._is_valid
    ∧ raises (_result_entry_t.ctor.bind bind_boolean_result target i).1.value
    ∧ raises (_result_entry_t.ctor.bind bind_boolean_result target i).1.is_null := by
  refine ⟨rfl, rfl, rfl, ?_, rfl, rfl, ?_, ?_⟩
  · simp [_result_entry_t.bind, row_buffer.bind_boolean_result]
  · simp [_result_entry_t.bind, _result_entry_t.ctor, _result_entry_t.value, raises]
  · simp [_result_entry_t.bind, _result_entry_t.ctor, _result_entry_t.is_null, raises]

/-! ## A null object carries the value false -/

theorem holder_op_null_value (op : holder_op) (s : _parameter_t) :
    (op.apply s)._is_null = true → (op.apply s)._value = false := by
  cases op with
  | assign_value v =>
    simp [holder_op.apply, _parameter_t.assign_value, _parameter_t._is_trivial,
      _parameter_t.value]
  | assign_null => intro _; rfl

theorem run_holder_null_value (ops : List holder_op) (s : _parameter_t)
    (hs : s._is_null = true → s._value = false) :
    (run_holder ops s)._is_null = true → (run_holder ops s)._value = false := by
  induction ops generalizing s with
  | nil => exact hs
  | cons op rest ih =>
    have step : run_holder (op :: rest) s = run_holder rest (op.apply s) := rfl
    rw [step]
    exact ih (op.apply s) (holder_op_null_value op s)

theorem decoder_op_null_value (op : decoder_op) (r : _result_entry_t) :
    (op.apply r)._is_null = true → (op.apply r)._value = false := by
  cases op with
  | assign data len =>
    rcases data with _ | bs <;> simp [decoder_op.apply, _result_entry_t.assign]
  | invalidate => intro _; rfl

theorem run_decoder_null_value (ops : List decoder_op) (r : _result_entry_t)
    (hr : r._is_null = true → r._value = false) :
    (run_decoder ops r)._is_null = true → (run_decoder ops r)._value = false := by
  induction ops generalizing r with
  | nil => exact hr
  | cons op rest ih =>
    have step : run_decoder (op :: rest) r = run_decoder rest (op.apply r) := rfl
    rw [step]
    exact ih (op.apply r) (decoder_op_null_value op r)

/-- C17: in every state reached from a constructor by assignments (holder) or
by `assign` and `invalidate` (decoder), a null flag of true implies a stored
value of false.  The holder may start from either tag constructor or from the
value constructor, the decoder from the default constructor or from raw bytes. -/
theorem null_implies_value_false (hops : List holder_op) (dops : List decoder_op)
    (p u v : Bool) (data : Option (List Nat)) (len : Nat) :
    ((run_holder hops (_parameter_t.ctor_policy p))._is_null = true →
      (run_holder hops (_parameter_t.ctor_policy p))._value = false)
    ∧ ((run_holder hops (_parameter_t.ctor_value u v))._is_null = true →
      (run_holder hops (_parameter_t.ctor_value u v))._value = false)
    ∧ ((run_decoder dops _result_entry_t.ctor)._is_null = true →
      (run_decoder dops _result_entry_t.ctor)._value = false)
    ∧ ((run_decoder dops (_result_entry_t.ctor_data data len))._is_null = true →
      (run_decoder dops (_result_entry_t.ctor_data data len))._value = false) := by
  refine ⟨?_, ?_, ?_, ?_⟩
  · apply run_holder_null_value
    cases p <;> decide
  · apply run_holder_null_value
    cases u <;> cases v <;> decide
  · apply run_decoder_null_value
    decide
  · apply run_decoder_null_value
    intro _
    rw [ctor_data_eq] at *
    rcases data with _ | bs
    · rfl
    · simp_all

theorem null_implies_value_false_witness :
    (run_holder [.assign_value true, .assign_null] (_parameter_t.ctor_policy false))._value
        = false
    ∧ (run_decoder [.assign (some (c_str "t")) 1, .assign none 0]
        _result_entry_t.ctor)._value = false :=
  ⟨(null_implies_value_false [.assign_value true, .assign_null] [] false false false
      none 0).1 rfl,
   (null_implies_value_false [] [.assign (some (c_str "t")) 1, .assign none 0] false false
      false none 0).2.2.1 rfl⟩

/-! ## Reads of an invalid decoder -/

/-- C19: decoding does not depend on the length argument nor on any byte after
the first: for all data and lengths `n`, `m` the constructor and `assign` give
the same state for `(data, n)` and `(data, m)`, and two non-null inputs with
the same first byte give the same state, whatever follows and whatever the
lengths and the prior states. -/
theorem decode_reads_first_byte (data : Option (List Nat)) (n m b : Nat)
    (rest1 rest2 : List Nat) (prior1 prior2 : _result_entry_t) :
    _result_entry_t.ctor_data data n = _result_entry_t.ctor_data data m
    ∧ prior1.assign data n = prior2.assign data m
    ∧ _result_entry_t.ctor_data (some (b :: rest1)) n
        = _result_entry_t.ctor_data (some (b :: rest2)) m
    ∧ prior1.assign (some (b :: rest1)) n = prior2.assign (some (b :: rest2)) m
    ∧ prior1.assign (some (b :: rest1)) n
        = _result_entry_t.ctor_data (some (b :: rest2)) m
    ∧ prior1.assign (some []) n = prior2.assign (some []) m := by
  refine ⟨?_, ?_, ?_, ?_, ?_, ?_⟩ <;> simp only [ctor_data_eq, assign_eq] <;> rfl

end sqlpp
